import Mathlib

/-!
Shallow embedding of `src/memmachine/common/embedder/ollama_embedder.py`
(`OllamaEmbedder`): construction (`__init__`), the two entry points
`ingest_embed` / `search_embed`, and the shared embedding procedure `_embed`.

Modelling choices:
* Embedding vectors are opaque sequences of numbers passed through unchanged;
  they are modelled as `List Int` (the client never inspects the numbers).
* Python inputs are dynamically typed (`list[Any]`): an input is either a
  string or some other object of which only truthiness matters
  (`PyInput.pother b`); calling `.replace` on a truthy non-string raises
  `AttributeError`.
* The remote service is modelled as a function from the request index and the
  issued request to a response. A response is either an HTTP response with a
  status, a body text, and the outcome of `(await response.json())["embedding"]`
  (an `Except` whose error is the description of the JSON/KeyError failure),
  or a transport failure (network error or timeout) with its description.
* `time.monotonic()` readings are abstracted as integers `tStart`, `tEnd`;
  `_embed` records how many clock readings it performs.
* `_embed` returns a trace: the HTTP POST requests actually issued in order,
  the final result (`Except` a Python exception), the metric events emitted,
  and the number of monotonic-clock readings.
-/

/-- Embedding vectors: ordered sequences of numbers, passed through unchanged. -/
abbrev Vec := List Int

/-- A dynamically typed Python input item: a string, or any other object of
which only truthiness is relevant. -/
inductive PyInput
  | pstr (s : String)
  | pother (truthy : Bool)
deriving DecidableEq

/-- Python truthiness of an input item: a string is truthy iff non-empty. -/
def PyInput.truthy : PyInput → Bool
  | .pstr s => !s.data.isEmpty
  | .pother b => b

/-- Python exceptions relevant to this module. `AttributeError`'s message
depends on the runtime type of the offending object and is not modelled. -/
inductive PyError
  | attributeError
  | runtimeError (msg : String)
  | typeError (msg : String)
deriving DecidableEq

/-- Decidable equality for `Except`, needed to derive decidable equality for
the response and outcome types below. -/
instance exceptDecEq {ε α : Type} [DecidableEq ε] [DecidableEq α] :
    DecidableEq (Except ε α) := fun x y =>
  match x, y with
  | .ok a, .ok b =>
    if h : a = b then .isTrue (by rw [h]) else .isFalse (by simp [h])
  | .error a, .error b =>
    if h : a = b then .isTrue (by rw [h]) else .isFalse (by simp [h])
  | .ok _, .error _ => .isFalse (by simp)
  | .error _, .ok _ => .isFalse (by simp)

/-- The charwise substitution performed by `input.replace("\n", " ")`. -/
def sanitizeChar (c : Char) : Char := if c = '\n' then ' ' else c

/-- Model of `input.replace("\n", " ")`: every newline character becomes a
single space. -/
def replaceNewlines (s : String) : String := ⟨s.data.map sanitizeChar⟩

/-- Model of one element of the cleaning comprehension
`input.replace("\n", " ") if input else " "`: the truthiness test comes
first; a truthy non-string has no `.replace` and raises `AttributeError`. -/
def cleanInput (i : PyInput) : Except PyError String :=
  if i.truthy then
    match i with
    | .pstr s => .ok (replaceNewlines s)
    | .pother _ => .error .attributeError
  else
    .ok " "

/-- Model of the list comprehension building `cleaned_inputs`: elements are
cleaned left to right; the first failure aborts the whole comprehension. -/
def cleanInputs : List PyInput → Except PyError (List String)
  | [] => .ok []
  | i :: is =>
    match cleanInput i with
    | .error e => .error e
    | .ok c =>
      match cleanInputs is with
      | .error e => .error e
      | .ok cs => .ok (c :: cs)

/-- One HTTP POST as issued by `session.post`: target URL, the JSON body
fields `model` and `prompt`, and the total timeout in seconds. -/
structure Request where
  url : String
  model : String
  prompt : String
  timeoutTotal : Nat
deriving DecidableEq

/-- A service response to one request: either an HTTP response carrying the
status, the outcome of `(await response.json())["embedding"]` (error holds
the description of a JSON-decode or missing-key failure), and the body text
read by `response.text()`; or a transport failure (network error, timeout)
with its description `str(e)`. -/
inductive Resp
  | http (status : Nat) (parse : Except String Vec) (bodyText : String)
  | netErr (desc : String)
deriving DecidableEq

/-- Model of the body of the per-request `try` block: on status 200 extract
the `embedding` field, otherwise raise
`aiohttp.ClientError(f"Ollama API error {status}: {error_text}")`. The
error side carries `str(e)` of whatever exception was raised. -/
def processResponse (r : Resp) : Except String Vec :=
  match r with
  | .netErr d => .error d
  | .http status parse bodyText =>
    if status = 200 then parse
    else .error ("Ollama API error " ++ toString status ++ ": " ++ bodyText)

/-- A metric emission: a counter increment or a summary observation, each
with its value and label set. -/
inductive MetricEvent
  | counterInc (value : Nat) (labels : List (String × String))
  | observe (value : Int) (labels : List (String × String))
deriving DecidableEq

/-- The state of a constructed `OllamaEmbedder`: `_model`, `_base_url`,
`_endpoint`, `_collect_metrics`, and `_user_metrics_labels` (defaulted to
the empty label set when metrics are disabled, where Python leaves the
attribute unset and never reads it). -/
structure EmbedderState where
  model : String
  base_url : String
  endpoint : String
  collectMetrics : Bool
  userMetricsLabels : List (String × String)
deriving DecidableEq

/-- A registration performed on the metrics factory at construction:
`get_counter(name, help, label_names)` or `get_summary(name, help,
label_names)`. -/
inductive RegEvent
  | counter (name helpText : String) (labelNames : List String)
  | summary (name helpText : String) (labelNames : List String)
deriving DecidableEq

/-- The `metrics_factory` configuration value, when present: either an
instance of `MetricsFactory` or some object that is not one. -/
inductive MFValue
  | factory
  | nonFactory
deriving DecidableEq

/-- The configuration mapping consumed by `__init__`, restricted to the
recognized keys; `none` models an absent key. -/
structure Config where
  model : Option String
  base_url : Option String
  metrics_factory : Option MFValue
  user_metrics_labels : Option (List (String × String))

/-- Model of `OllamaEmbedder.__init__`: apply defaults, derive the endpoint,
check the type of `metrics_factory` (raising `TypeError` before any counter
or summary registration — and no HTTP request is ever made here), and, when
a factory is supplied, eagerly register the request counter and latency
summary with label names taken from the keys of `user_metrics_labels`.
Returns the registrations performed together with the construction result. -/
def ollamaInit (cfg : Config) : List RegEvent × Except PyError EmbedderState :=
  let model := cfg.model.getD "nomic-embed-text"
  let base_url := cfg.base_url.getD "http://ollama:11434"
  let endpoint := base_url ++ "/api/embeddings"
  match cfg.metrics_factory with
  | some .nonFactory =>
    ([], .error (.typeError "Metrics factory must be an instance of MetricsFactory"))
  | none =>
    ([], .ok ⟨model, base_url, endpoint, false, []⟩)
  | some .factory =>
    let labels := cfg.user_metrics_labels.getD []
    let names := labels.map Prod.fst
    ([.counter "embedder_ollama_usage_requests"
        "Number of requests to Ollama embedder" names,
      .summary "embedder_ollama_latency_seconds"
        "Latency in seconds for Ollama embedder requests" names],
     .ok ⟨model, base_url, endpoint, true, labels⟩)

/-- Model of the `for input_text in cleaned_inputs` request loop: issue one
POST per cleaned input, strictly in order, stopping at the first failing
request. `svc i r` is the service behaviour for the request of index `i`;
`k` is the index of the first remaining request. Returns the requests
issued and either the accumulated embeddings or the description of the
first failure. -/
def requestLoop (st : EmbedderState) (svc : Nat → Request → Resp) :
    List String → Nat → List Request × Except String (List Vec)
  | [], _ => ([], .ok [])
  | t :: ts, k =>
    let req : Request := ⟨st.endpoint, st.model, t, 30⟩
    match processResponse (svc k req) with
    | .error d => ([req], .error d)
    | .ok v =>
      match requestLoop st svc ts (k + 1) with
      | (reqs, .ok vs) => (req :: reqs, .ok (v :: vs))
      | (reqs, .error d) => (req :: reqs, .error d)

/-- The observable outcome of one `_embed` call: the POSTs issued in order,
the returned value or raised exception, the metric events emitted, and the
number of `time.monotonic()` readings performed. -/
structure EmbedOutcome where
  requests : List Request
  result : Except PyError (List Vec)
  events : List MetricEvent
  clockReads : Nat
deriving DecidableEq

/-- Model of `OllamaEmbedder._embed`. Empty inputs short-circuit before any
cleaning, clock reading, request, or metric. Cleaning happens before the
clock is started and before the session and the per-request `try` block, so
a cleaning failure propagates unwrapped with no request and no metric. A
request failure is re-raised as
`RuntimeError(f"Failed to get embedding from Ollama: {e}")` and propagates
before `end_time` is read and before the metrics block. On success, when
metrics are collected, the counter is incremented by `len(inputs)` and the
latency `end_time - start_time` is observed, both with the configured
labels. -/
def ollamaEmbedCore (st : EmbedderState) (svc : Nat → Request → Resp)
    (tStart tEnd : Int) (inputs : List PyInput) : EmbedOutcome :=
  match inputs with
  | [] => ⟨[], .ok [], [], 0⟩
  | _ :: _ =>
    match cleanInputs inputs with
    | .error e => ⟨[], .error e, [], 0⟩
    | .ok cleaned =>
      match requestLoop st svc cleaned 0 with
      | (reqs, .error d) =>
        ⟨reqs, .error (.runtimeError ("Failed to get embedding from Ollama: " ++ d)),
         [], 1⟩
      | (reqs, .ok vecs) =>
        let events :=
          if st.collectMetrics then
            [MetricEvent.counterInc inputs.length st.userMetricsLabels,
             MetricEvent.observe (tEnd - tStart) st.userMetricsLabels]
          else []
        ⟨reqs, .ok vecs, events, 2⟩

/-- Model of `OllamaEmbedder.ingest_embed`: delegates to `_embed`. -/
def OllamaEmbedder.ingest_embed (st : EmbedderState) (svc : Nat → Request → Resp)
    (tStart tEnd : Int) (inputs : List PyInput) : EmbedOutcome :=
  ollamaEmbedCore st svc tStart tEnd inputs

/-- Model of `OllamaEmbedder.search_embed`: delegates to `_embed`. -/
def OllamaEmbedder.search_embed (st : EmbedderState) (svc : Nat → Request → Resp)
    (tStart tEnd : Int) (queries : List PyInput) : EmbedOutcome :=
  ollamaEmbedCore st svc tStart tEnd queries

/-- Successful cleaning preserves the number of items. -/
theorem cleanInputs_length (inputs : List PyInput) (cleaned : List String)
    (h : cleanInputs inputs = .ok cleaned) : cleaned.length = inputs.length := by
  induction inputs generalizing cleaned with
  | nil =>
    simp only [cleanInputs] at h
    injection h with h
    subst h
    rfl
  | cons i is ih =>
    simp only [cleanInputs] at h
    cases hc : cleanInput i with
    | error e => rw [hc] at h; simp at h
    | ok c =>
      rw [hc] at h
      cases hcs : cleanInputs is with
      | error e => rw [hcs] at h; simp at h
      | ok cs =>
        rw [hcs] at h
        injection h with h
        subst h
        simp [ih cs hcs]

/-- The only exception cleaning can raise is `AttributeError` (from calling
`.replace` on a truthy non-string). -/
theorem cleanInput_error_eq (i : PyInput) (e : PyError)
    (h : cleanInput i = .error e) : e = PyError.attributeError := by
  cases i with
  | pstr s =>
    simp only [cleanInput, PyInput.truthy] at h
    by_cases hs : s.data = [] <;> simp [hs] at h
  | pother b =>
    cases b with
    | false => simp [cleanInput, PyInput.truthy] at h
    | true =>
      simp only [cleanInput, PyInput.truthy] at h
      injection h with h
      exact h.symm

/-- A list containing a truthy non-string fails to clean, with the
`AttributeError` raised by the comprehension. -/
theorem cleanInputs_pother_true (inputs : List PyInput)
    (hmem : PyInput.pother true ∈ inputs) :
    cleanInputs inputs = .error .attributeError := by
  induction inputs with
  | nil => simp at hmem
  | cons i is ih =>
    rcases List.mem_cons.mp hmem with h | h
    · subst h
      rfl
    · simp only [cleanInputs]
      cases hc : cleanInput i with
      | error e => simp [cleanInput_error_eq i e hc]
      | ok c => rw [ih h]

/-- When every remaining request succeeds and `vecs` lists, position by
position, the `embedding` field of each response, the loop issues one
request per cleaned input in order and returns exactly `vecs`. -/
theorem requestLoop_all_ok (st : EmbedderState) (svc : Nat → Request → Resp) :
    ∀ (ts : List String) (k : Nat) (vecs : List Vec)
      (hlen : vecs.length = ts.length),
      (∀ i (hi : i < ts.length),
        processResponse (svc (k + i) ⟨st.endpoint, st.model, ts.get ⟨i, hi⟩, 30⟩)
          = Except.ok (vecs.get ⟨i, by omega⟩)) →
      requestLoop st svc ts k
        = (ts.map (fun t => ⟨st.endpoint, st.model, t, 30⟩), Except.ok vecs) := by
  intro ts
  induction ts with
  | nil =>
    intro k vecs hlen _
    have hv : vecs = [] := List.eq_nil_of_length_eq_zero hlen
    subst hv
    rfl
  | cons t ts ih =>
    intro k vecs hlen hresp
    match vecs, hlen with
    | v :: vs, hlen =>
      have hlen' : vs.length = ts.length := by simpa using hlen
      have h0 : processResponse (svc k ⟨st.endpoint, st.model, t, 30⟩)
          = Except.ok v := hresp 0 (Nat.succ_pos _)
      have hs : ∀ i (hi : i < ts.length),
          processResponse (svc (k + 1 + i) ⟨st.endpoint, st.model, ts.get ⟨i, hi⟩, 30⟩)
            = Except.ok (vs.get ⟨i, by omega⟩) := by
        intro i hi
        have h1 := hresp (i + 1) (Nat.succ_lt_succ hi)
        have e : k + (i + 1) = k + 1 + i := by omega
        rw [e] at h1
        exact h1
      simp only [requestLoop]
      rw [h0, ih (k + 1) vs hlen' hs]
      simp

/-- When the requests before index `i` succeed and the request of index `i`
fails with cause description `d`, the loop's result is the error `d`. -/
theorem requestLoop_first_error (st : EmbedderState) (svc : Nat → Request → Resp) :
    ∀ (ts : List String) (i : Nat) (k : Nat) (hi : i < ts.length) (d : String),
      (∀ j (hj : j < i),
        ∃ v, processResponse (svc (k + j) ⟨st.endpoint, st.model, ts.get ⟨j, by omega⟩, 30⟩)
          = Except.ok v) →
      processResponse (svc (k + i) ⟨st.endpoint, st.model, ts.get ⟨i, hi⟩, 30⟩)
        = Except.error d →
      (requestLoop st svc ts k).2 = Except.error d := by
  intro ts
  induction ts with
  | nil => intro i k hi d _ _; simp at hi
  | cons t ts ih =>
    intro i k hi d hprev hfail
    cases i with
    | zero =>
      have hf : processResponse (svc k ⟨st.endpoint, st.model, t, 30⟩)
          = Except.error d := hfail
      simp only [requestLoop]
      rw [hf]
    | succ i =>
      have hi' : i < ts.length := by simp at hi; omega
      obtain ⟨v, hv⟩ := hprev 0 (Nat.succ_pos _)
      have hv' : processResponse (svc k ⟨st.endpoint, st.model, t, 30⟩)
          = Except.ok v := hv
      have hprev' : ∀ j (hj : j < i),
          ∃ v, processResponse (svc (k + 1 + j) ⟨st.endpoint, st.model, ts.get ⟨j, by omega⟩, 30⟩)
            = Except.ok v := by
        intro j hj
        obtain ⟨w, hw⟩ := hprev (j + 1) (Nat.succ_lt_succ hj)
        have e : k + (j + 1) = k + 1 + j := by omega
        rw [e] at hw
        exact ⟨w, hw⟩
      have hfail' : processResponse
            (svc (k + 1 + i) ⟨st.endpoint, st.model, ts.get ⟨i, hi'⟩, 30⟩)
          = Except.error d := by
        have e : k + (i + 1) = k + 1 + i := by omega
        rw [e] at hfail
        exact hfail
      have htail := ih i (k + 1) hi' d hprev' hfail'
      simp only [requestLoop]
      rw [hv']
      rcases hrl : requestLoop st svc ts (k + 1) with ⟨reqs, res⟩
      rw [hrl] at htail
      cases res with
      | ok vs => simp at htail
      | error d' =>
        simp at htail
        subst htail
        simp

/-- The requests issued by the loop are an initial segment, in order, of one
request per remaining cleaned input. -/
theorem requestLoop_requests_ordered (st : EmbedderState) (svc : Nat → Request → Resp) :
    ∀ (ts : List String) (k : Nat),
      ∃ rest, (requestLoop st svc ts k).1 ++ rest
        = ts.map (fun t => ⟨st.endpoint, st.model, t, 30⟩) := by
  intro ts
  induction ts with
  | nil => intro k; exact ⟨[], rfl⟩
  | cons t ts ih =>
    intro k
    simp only [requestLoop]
    cases hpr : processResponse (svc k ⟨st.endpoint, st.model, t, 30⟩) with
    | error d => exact ⟨ts.map (fun t => ⟨st.endpoint, st.model, t, 30⟩), by simp⟩
    | ok v =>
      obtain ⟨rest, hrest⟩ := ih (k + 1)
      rcases hrl : requestLoop st svc ts (k + 1) with ⟨reqs, res⟩
      rw [hrl] at hrest
      cases res with
      | ok vs => exact ⟨rest, by simp_all⟩
      | error d => exact ⟨rest, by simp_all⟩

/-- C4: for every input item, the prompt sent is the item with every newline
replaced by a single space; an empty or falsy item is sent as exactly one
space, never as an empty prompt. In particular "hello\nworld" is sent as
"hello world" and "" is sent as " ". -/
theorem ollama_sanitization (s : String) :
    cleanInput (.pstr s)
        = .ok (if s.data.isEmpty then " " else replaceNewlines s)
    ∧ (replaceNewlines s).data = s.data.map (fun c => if c = '\n' then ' ' else c)
    ∧ cleanInput (.pstr s) ≠ .ok ""
    ∧ cleanInput (.pstr "hello\nworld") = .ok "hello world"
    ∧ cleanInput (.pstr "") = .ok " "
    ∧ cleanInput (.pother false) = .ok " " := by
  refine ⟨?_, rfl, ?_, by decide, by decide, by decide⟩
  · by_cases h : s.data.isEmpty <;> simp [cleanInput, PyInput.truthy, h]
  · intro hcon
    by_cases h : s.data.isEmpty
    · rw [show cleanInput (.pstr s) = .ok " " from by
        simp [cleanInput, PyInput.truthy, h]] at hcon
      injection hcon with hcon
      exact absurd hcon (by decide)
    · rw [show cleanInput (.pstr s) = .ok (replaceNewlines s) from by
        simp [cleanInput, PyInput.truthy, h]] at hcon
      injection hcon with hcon
      have hdata : s.data.map sanitizeChar = ([] : List Char) :=
        congrArg String.data hcon
      have hnil : s.data = [] := List.map_eq_nil_iff.mp hdata
      simp [hnil] at h

/-- C4 witness: the sanitization theorem evaluated at the concrete string
"a\nb". -/
theorem ollama_sanitization_witness :
    cleanInput (.pstr "a\nb")
        = .ok (if ("a\nb" : String).data.isEmpty then " " else replaceNewlines "a\nb")
    ∧ (replaceNewlines "a\nb").data
        = ("a\nb" : String).data.map (fun c => if c = '\n' then ' ' else c)
    ∧ cleanInput (.pstr "a\nb") ≠ .ok ""
    ∧ cleanInput (.pstr "hello\nworld") = .ok "hello world"
    ∧ cleanInput (.pstr "") = .ok " "
    ∧ cleanInput (.pother false) = .ok " " :=
  ollama_sanitization "a\nb"

/-- C5: the empty input list short-circuits: empty result, no HTTP request,
no metric emission, and no monotonic-clock reading, whatever the metrics
setting in the state. -/
theorem ollama_embed_empty_shortcircuit (st : EmbedderState)
    (svc : Nat → Request → Resp) (tStart tEnd : Int) :
    ollamaEmbedCore st svc tStart tEnd []
      = ⟨[], Except.ok [], [], 0⟩ := rfl

/-- C8: `ingest_embed` and `search_embed` agree on every state, service
behaviour, clock, and input list, since both delegate to the shared
embedding procedure. -/
theorem ollama_ingest_search_equiv (st : EmbedderState)
    (svc : Nat → Request → Resp) (tStart tEnd : Int) (xs : List PyInput) :
    OllamaEmbedder.ingest_embed st svc tStart tEnd xs
      = OllamaEmbedder.search_embed st svc tStart tEnd xs := rfl

/-- C7: a present but ill-typed `metrics_factory` makes construction fail
with the TypeError before any counter or summary is registered (and
construction never issues an HTTP request); an absent `metrics_factory`
yields a constructed client with metrics collection disabled. -/
theorem ollama_init_metrics_factory_check (cfg : Config) :
    (cfg.metrics_factory = some MFValue.nonFactory →
      ollamaInit cfg
        = ([], Except.error (PyError.typeError
            "Metrics factory must be an instance of MetricsFactory")))
    ∧ (cfg.metrics_factory = none →
      ∃ st, ollamaInit cfg = ([], Except.ok st)
        ∧ st.collectMetrics = false
        ∧ st.model = cfg.model.getD "nomic-embed-text"
        ∧ st.endpoint = cfg.base_url.getD "http://ollama:11434" ++ "/api/embeddings") := by
  constructor
  · intro h
    simp [ollamaInit, h]
  · intro h
    exact ⟨⟨cfg.model.getD "nomic-embed-text", cfg.base_url.getD "http://ollama:11434",
      cfg.base_url.getD "http://ollama:11434" ++ "/api/embeddings", false, []⟩,
      by simp [ollamaInit, h], rfl, rfl, rfl⟩

/-- C7 witness: a config whose `metrics_factory` is not a MetricsFactory
instance is rejected with no registration performed. -/
theorem ollama_init_metrics_factory_check_witness :
    ollamaInit ⟨none, none, some MFValue.nonFactory, none⟩
      = ([], Except.error (PyError.typeError
          "Metrics factory must be an instance of MetricsFactory")) :=
  (ollama_init_metrics_factory_check ⟨none, none, some MFValue.nonFactory, none⟩).1 rfl

/-- C10: an input list containing a truthy non-string makes `_embed` raise
the AttributeError from the cleaning comprehension unwrapped — not the
uniform RuntimeError — with no HTTP request, no metric emission, and no
clock reading, because cleaning precedes the per-request try block. -/
theorem ollama_nonstring_unwrapped (st : EmbedderState)
    (svc : Nat → Request → Resp) (tStart tEnd : Int) (inputs : List PyInput)
    (hmem : PyInput.pother true ∈ inputs) :
    ollamaEmbedCore st svc tStart tEnd inputs
      = ⟨[], Except.error PyError.attributeError, [], 0⟩ := by
  have hclean := cleanInputs_pother_true inputs hmem
  cases inputs with
  | nil => simp at hmem
  | cons i is =>
    simp only [ollamaEmbedCore]
    rw [hclean]

/-- C10 witness: the unwrapped AttributeError outcome on a concrete list
holding a truthy non-string. -/
theorem ollama_nonstring_unwrapped_witness :
    PyInput.pother true ∈ [PyInput.pstr "cat", PyInput.pother true]
    ∧ ollamaEmbedCore ⟨"m", "u", "u/api/embeddings", true, []⟩
        (fun _ _ => Resp.netErr "down") 0 5
        [PyInput.pstr "cat", PyInput.pother true]
      = ⟨[], Except.error PyError.attributeError, [], 0⟩ :=
  ⟨by decide, ollama_nonstring_unwrapped _ _ _ _ _ (by decide)⟩

/-- Specialization of the success loop lemma to the start index 0 used by
`_embed`. -/
theorem requestLoop_all_ok_zero (st : EmbedderState) (svc : Nat → Request → Resp)
    (ts : List String) (vecs : List Vec)
    (hlen : vecs.length = ts.length)
    (hresp : ∀ i (hi : i < ts.length),
      processResponse (svc i ⟨st.endpoint, st.model, ts.get ⟨i, hi⟩, 30⟩)
        = Except.ok (vecs.get ⟨i, by omega⟩)) :
    requestLoop st svc ts 0
      = (ts.map (fun t => ⟨st.endpoint, st.model, t, 30⟩), Except.ok vecs) := by
  apply requestLoop_all_ok st svc ts 0 vecs hlen
  intro i hi
  rw [Nat.zero_add]
  exact hresp i hi

/-- On the first failing request the whole call fails with the uniform
RuntimeError wrapping the cause description, and no vector list is
returned. -/
theorem ollamaEmbedCore_first_fail (st : EmbedderState)
    (svc : Nat → Request → Resp) (tStart tEnd : Int)
    (inputs : List PyInput) (cleaned : List String) (i : Nat) (d : String)
    (hclean : cleanInputs inputs = Except.ok cleaned)
    (hi : i < cleaned.length)
    (hprev : ∀ j (hj : j < i),
      ∃ v, processResponse (svc j ⟨st.endpoint, st.model, cleaned.get ⟨j, by omega⟩, 30⟩)
        = Except.ok v)
    (hfail : processResponse (svc i ⟨st.endpoint, st.model, cleaned.get ⟨i, hi⟩, 30⟩)
      = Except.error d) :
    (ollamaEmbedCore st svc tStart tEnd inputs).result
      = Except.error (PyError.runtimeError
          ("Failed to get embedding from Ollama: " ++ d)) := by
  have hprev0 : ∀ j (hj : j < i),
      ∃ v, processResponse (svc (0 + j) ⟨st.endpoint, st.model, cleaned.get ⟨j, by omega⟩, 30⟩)
        = Except.ok v := by
    intro j hj
    rw [Nat.zero_add]
    exact hprev j hj
  have hfail0 : processResponse
        (svc (0 + i) ⟨st.endpoint, st.model, cleaned.get ⟨i, hi⟩, 30⟩)
      = Except.error d := by
    rw [Nat.zero_add]
    exact hfail
  have hloop := requestLoop_first_error st svc cleaned i 0 hi d hprev0 hfail0
  cases inputs with
  | nil =>
    simp only [cleanInputs] at hclean
    injection hclean with hc
    subst hc
    simp at hi
  | cons x xs =>
    simp only [ollamaEmbedCore, hclean]
    rcases hrl : requestLoop st svc cleaned 0 with ⟨reqs, res⟩
    rw [hrl] at hloop
    cases res with
    | ok vs => simp at hloop
    | error d' =>
      simp at hloop
      subst hloop
      rfl

/-- C1: with a non-empty input list whose cleaning succeeds and every
per-item request succeeding, `_embed` returns exactly the list whose entry
at position `i` is the `embedding` field of the service response to request
`i`, order preserved, with as many vectors as inputs. -/
theorem ollama_embed_success_order (st : EmbedderState)
    (svc : Nat → Request → Resp) (tStart tEnd : Int)
    (inputs : List PyInput) (cleaned : List String) (vecs : List Vec)
    (hne : inputs ≠ [])
    (hclean : cleanInputs inputs = Except.ok cleaned)
    (hlen : vecs.length = cleaned.length)
    (hresp : ∀ i (hi : i < cleaned.length),
      processResponse (svc i ⟨st.endpoint, st.model, cleaned.get ⟨i, hi⟩, 30⟩)
        = Except.ok (vecs.get ⟨i, by omega⟩)) :
    (ollamaEmbedCore st svc tStart tEnd inputs).result = Except.ok vecs
    ∧ vecs.length = inputs.length := by
  have hloop := requestLoop_all_ok_zero st svc cleaned vecs hlen hresp
  refine ⟨?_, by rw [hlen, cleanInputs_length inputs cleaned hclean]⟩
  cases inputs with
  | nil => exact absurd rfl hne
  | cons x xs =>
    simp only [ollamaEmbedCore, hclean, hloop]

/-- C2: if cleaning succeeds but some request fails (requests before it
succeeding), the whole call raises the wrapping RuntimeError: no partial
vector list is returned and the vectors already accumulated are
discarded. -/
theorem ollama_embed_abort_on_failure (st : EmbedderState)
    (svc : Nat → Request → Resp) (tStart tEnd : Int)
    (inputs : List PyInput) (cleaned : List String) (i : Nat) (d : String)
    (hclean : cleanInputs inputs = Except.ok cleaned)
    (hi : i < cleaned.length)
    (hprev : ∀ j (hj : j < i),
      ∃ v, processResponse (svc j ⟨st.endpoint, st.model, cleaned.get ⟨j, by omega⟩, 30⟩)
        = Except.ok v)
    (hfail : processResponse (svc i ⟨st.endpoint, st.model, cleaned.get ⟨i, hi⟩, 30⟩)
      = Except.error d) :
    (ollamaEmbedCore st svc tStart tEnd inputs).result
      = Except.error (PyError.runtimeError
          ("Failed to get embedding from Ollama: " ++ d)) :=
  ollamaEmbedCore_first_fail st svc tStart tEnd inputs cleaned i d hclean hi hprev hfail

/-- C3: every per-request failure is re-raised as the uniform RuntimeError
whose message wraps the cause description, and a non-200 status produces
the cause description carrying the status code and the response body
text. -/
theorem ollama_embed_uniform_error_wrapping (st : EmbedderState)
    (svc : Nat → Request → Resp) (tStart tEnd : Int)
    (inputs : List PyInput) (cleaned : List String) (i : Nat) (d : String)
    (status : Nat) (parse : Except String Vec) (bodyText : String)
    (hclean : cleanInputs inputs = Except.ok cleaned)
    (hi : i < cleaned.length)
    (hprev : ∀ j (hj : j < i),
      ∃ v, processResponse (svc j ⟨st.endpoint, st.model, cleaned.get ⟨j, by omega⟩, 30⟩)
        = Except.ok v)
    (hfail : processResponse (svc i ⟨st.endpoint, st.model, cleaned.get ⟨i, hi⟩, 30⟩)
      = Except.error d)
    (hstatus : status ≠ 200) :
    (ollamaEmbedCore st svc tStart tEnd inputs).result
      = Except.error (PyError.runtimeError
          ("Failed to get embedding from Ollama: " ++ d))
    ∧ processResponse (Resp.http status parse bodyText)
      = Except.error ("Ollama API error " ++ toString status ++ ": " ++ bodyText) :=
  ⟨ollamaEmbedCore_first_fail st svc tStart tEnd inputs cleaned i d hclean hi hprev hfail,
   by simp [processResponse, hstatus]⟩

/-- C6: a successful non-empty call on a state with metrics enabled emits
exactly one counter increment by the original input count and one latency
observation of end minus start, both with the static labels configured at
construction; and any call whatsoever on a state with metrics disabled
emits no metric event at all. -/
theorem ollama_embed_metrics_emission (st : EmbedderState)
    (svc : Nat → Request → Resp) (tStart tEnd : Int)
    (inputs : List PyInput) (cleaned : List String) (vecs : List Vec)
    (stOff : EmbedderState) (anyInputs : List PyInput)
    (hne : inputs ≠ [])
    (hclean : cleanInputs inputs = Except.ok cleaned)
    (hlen : vecs.length = cleaned.length)
    (hresp : ∀ i (hi : i < cleaned.length),
      processResponse (svc i ⟨st.endpoint, st.model, cleaned.get ⟨i, hi⟩, 30⟩)
        = Except.ok (vecs.get ⟨i, by omega⟩))
    (hoff : stOff.collectMetrics = false) :
    ((ollamaEmbedCore st svc tStart tEnd inputs).events
        = if st.collectMetrics then
            [MetricEvent.counterInc inputs.length st.userMetricsLabels,
             MetricEvent.observe (tEnd - tStart) st.userMetricsLabels]
          else [])
    ∧ (ollamaEmbedCore stOff svc tStart tEnd anyInputs).events = [] := by
  constructor
  · have hloop := requestLoop_all_ok_zero st svc cleaned vecs hlen hresp
    cases inputs with
    | nil => exact absurd rfl hne
    | cons x xs => simp only [ollamaEmbedCore, hclean, hloop]
  · cases anyInputs with
    | nil => rfl
    | cons x xs =>
      cases hc : cleanInputs (x :: xs) with
      | error e => simp only [ollamaEmbedCore, hc]
      | ok cl =>
        simp only [ollamaEmbedCore, hc]
        rcases hrl : requestLoop stOff svc cl 0 with ⟨reqs, res⟩
        cases res with
        | error d => rfl
        | ok vs => simp [hoff]

/-- C9: a successful non-empty call issues exactly one POST per input item,
strictly in input order (request `i` is answered before request `i + 1` is
issued, as the loop is sequential), each to the configured endpoint with
JSON body fields set to the configured model and the sanitized prompt and a
30-second total timeout; and on every call whose cleaning succeeds — even a
failing one — the requests issued form an initial segment, in order, of that
one-per-item list. -/
theorem ollama_embed_sequential_requests (st : EmbedderState)
    (svc : Nat → Request → Resp) (tStart tEnd : Int)
    (inputs : List PyInput) (cleaned : List String) (vecs : List Vec)
    (other : List PyInput) (cl : List String)
    (hne : inputs ≠ [])
    (hclean : cleanInputs inputs = Except.ok cleaned)
    (hlen : vecs.length = cleaned.length)
    (hresp : ∀ i (hi : i < cleaned.length),
      processResponse (svc i ⟨st.endpoint, st.model, cleaned.get ⟨i, hi⟩, 30⟩)
        = Except.ok (vecs.get ⟨i, by omega⟩))
    (hcl : cleanInputs other = Except.ok cl) :
    (ollamaEmbedCore st svc tStart tEnd inputs).requests
        = cleaned.map (fun t => ⟨st.endpoint, st.model, t, 30⟩)
    ∧ (ollamaEmbedCore st svc tStart tEnd inputs).requests.length = inputs.length
    ∧ (ollamaEmbedCore st svc tStart tEnd other).requests
        = ((cl.take (ollamaEmbedCore st svc tStart tEnd other).requests.length).map
            (fun t => ⟨st.endpoint, st.model, t, 30⟩)) := by
  have hloop := requestLoop_all_ok_zero st svc cleaned vecs hlen hresp
  have hreq : (ollamaEmbedCore st svc tStart tEnd inputs).requests
      = cleaned.map (fun t => ⟨st.endpoint, st.model, t, 30⟩) := by
    cases inputs with
    | nil => exact absurd rfl hne
    | cons x xs => simp only [ollamaEmbedCore, hclean, hloop]
  refine ⟨hreq, ?_, ?_⟩
  · rw [hreq, List.length_map, cleanInputs_length inputs cleaned hclean]
  · cases other with
    | nil =>
      simp only [cleanInputs] at hcl
      injection hcl with h
      subst h
      rfl
    | cons y ys =>
      simp only [ollamaEmbedCore, hcl]
      obtain ⟨rest, hrest⟩ := requestLoop_requests_ordered st svc cl 0
      rcases hrl : requestLoop st svc cl 0 with ⟨reqs, res⟩
      rw [hrl] at hrest
      have htake : reqs
          = (cl.map (fun t => ⟨st.endpoint, st.model, t, 30⟩)).take reqs.length := by
        rw [← hrest, List.take_left]
      cases res with
      | error d =>
        simp only []
        rw [← List.map_take] at htake
        exact htake
      | ok vs =>
        simp only []
        rw [← List.map_take] at htake
        exact htake

/-- A concrete embedder state, metrics enabled, used to evaluate the
theorems on explicit inputs. -/
def demoState : EmbedderState :=
  ⟨"nomic-embed-text", "http://ollama:11434",
   "http://ollama:11434/api/embeddings", true, [("team", "alpha")]⟩

/-- The same concrete state with metrics collection disabled. -/
def demoStateOff : EmbedderState :=
  ⟨"nomic-embed-text", "http://ollama:11434",
   "http://ollama:11434/api/embeddings", false, []⟩

/-- A concrete always-succeeding service: request `i` is answered with
status 200 and embedding `[i]`. -/
def demoSvc : Nat → Request → Resp :=
  fun i _ => Resp.http 200 (Except.ok [(i : Int)]) "body"

/-- The concrete input list of the spec scenario: ["cat", "", "dog\nfood"]. -/
def demoInputs : List PyInput :=
  [PyInput.pstr "cat", PyInput.pstr "", PyInput.pstr "dog\nfood"]

/-- A concrete service whose second request fails with a 500 status. -/
def demoFailSvc : Nat → Request → Resp :=
  fun i _ =>
    if i = 0 then Resp.http 200 (Except.ok [7]) "body"
    else Resp.http 500 (Except.error "no json") "boom"

/-- C1 witness: the success theorem evaluated on the spec scenario against a
service answering request `i` with embedding `[i]`. -/
theorem ollama_embed_success_order_witness :
    (ollamaEmbedCore demoState demoSvc 2 7 demoInputs).result
        = Except.ok [[0], [1], [2]]
    ∧ ([[0], [1], [2]] : List Vec).length = demoInputs.length :=
  ollama_embed_success_order demoState demoSvc 2 7 demoInputs
    ["cat", " ", "dog food"] [[0], [1], [2]]
    (by decide) rfl rfl
    (by
      intro i hi
      have hi3 : i < 3 := hi
      interval_cases i <;> rfl)

/-- C2 witness: the abort theorem evaluated where the second of two requests
gets a 500 response. -/
theorem ollama_embed_abort_on_failure_witness :
    (ollamaEmbedCore demoState demoFailSvc 2 7
        [PyInput.pstr "a", PyInput.pstr "b"]).result
      = Except.error (PyError.runtimeError
          ("Failed to get embedding from Ollama: " ++ "Ollama API error 500: boom")) :=
  ollama_embed_abort_on_failure demoState demoFailSvc 2 7
    [PyInput.pstr "a", PyInput.pstr "b"] ["a", "b"] 1 "Ollama API error 500: boom"
    rfl (by decide)
    (by
      intro j hj
      have hj1 : j < 1 := hj
      interval_cases j
      exact ⟨[7], rfl⟩)
    rfl

/-- C3 witness: the wrapping theorem evaluated on the same 500 failure. -/
theorem ollama_embed_uniform_error_wrapping_witness :
    (ollamaEmbedCore demoState demoFailSvc 2 7
        [PyInput.pstr "a", PyInput.pstr "b"]).result
      = Except.error (PyError.runtimeError
          ("Failed to get embedding from Ollama: " ++ "Ollama API error 500: boom"))
    ∧ processResponse (Resp.http 500 (Except.error "no json") "boom")
      = Except.error ("Ollama API error " ++ toString (500 : Nat) ++ ": " ++ "boom") :=
  ollama_embed_uniform_error_wrapping demoState demoFailSvc 2 7
    [PyInput.pstr "a", PyInput.pstr "b"] ["a", "b"] 1 "Ollama API error 500: boom"
    500 (Except.error "no json") "boom"
    rfl (by decide)
    (by
      intro j hj
      have hj1 : j < 1 := hj
      interval_cases j
      exact ⟨[7], rfl⟩)
    rfl (by decide)

/-- C6 witness: the metrics theorem evaluated with metrics enabled (counter
incremented by 3, latency 7 - 2 observed, labels attached) and with metrics
disabled (no event). -/
theorem ollama_embed_metrics_emission_witness :
    ((ollamaEmbedCore demoState demoSvc 2 7 demoInputs).events
        = if demoState.collectMetrics then
            [MetricEvent.counterInc demoInputs.length demoState.userMetricsLabels,
             MetricEvent.observe (7 - 2) demoState.userMetricsLabels]
          else [])
    ∧ (ollamaEmbedCore demoStateOff demoSvc 2 7 demoInputs).events = [] :=
  ollama_embed_metrics_emission demoState demoSvc 2 7 demoInputs
    ["cat", " ", "dog food"] [[0], [1], [2]] demoStateOff demoInputs
    (by decide) rfl rfl
    (by
      intro i hi
      have hi3 : i < 3 := hi
      interval_cases i <;> rfl)
    rfl

/-- C9 witness: the sequential-requests theorem evaluated on the spec
scenario, with an extra singleton call for the initial-segment clause. -/
theorem ollama_embed_sequential_requests_witness :
    (ollamaEmbedCore demoState demoSvc 2 7 demoInputs).requests
        = ["cat", " ", "dog food"].map
            (fun t => ⟨demoState.endpoint, demoState.model, t, 30⟩)
    ∧ (ollamaEmbedCore demoState demoSvc 2 7 demoInputs).requests.length
        = demoInputs.length
    ∧ (ollamaEmbedCore demoState demoSvc 2 7 [PyInput.pstr "x"]).requests
        = ((["x"].take
            (ollamaEmbedCore demoState demoSvc 2 7 [PyInput.pstr "x"]).requests.length).map
            (fun t => ⟨demoState.endpoint, demoState.model, t, 30⟩)) :=
  ollama_embed_sequential_requests demoState demoSvc 2 7 demoInputs
    ["cat", " ", "dog food"] [[0], [1], [2]] [PyInput.pstr "x"] ["x"]
    (by decide) rfl rfl
    (by
      intro i hi
      have hi3 : i < 3 := hi
      interval_cases i <;> rfl)
    rfl
